import Mathlib

/-!
Verification of the asset_flow asset-tracking application core.

The definitions below are a shallow embedding of the Python source under
`src/assets/`:

* `assetSaveNormalize`  — `Asset.save` in `models.py` (status/assignee
  normalization run before every persistence);
* `trackAssetChanges` / `signalOnSave` — the `pre_save` receiver in
  `signals.py` (the audit-log writer);
* `addAssetPermitted`   — the quota gate at the top of `add_asset` in
  `views.py`;
* `downloadLabelsGate`  — the premium gate of `download_labels_pdf` in
  `views.py`;
* `resolveOwner`        — `get_shared_owner` in `views.py`;
* `layoutPlacements`    — the label grid loop of `download_labels_pdf`.

Statuses are the five members of `Asset.STATUS_CHOICES`; employees are
modelled by their primary key together with their display name, and users
(Django `User` rows) by their primary key.
-/

/-- The `Asset.status` enumeration (`Asset.STATUS_CHOICES` in `models.py`). -/
inductive Status where
  | AVAILABLE
  | ASSIGNED
  | MAINTENANCE
  | LOST
  | BROKEN
deriving DecidableEq, Repr

/-- Display label of a status, the second component of each pair in
`Asset.STATUS_CHOICES`. -/
def statusLabel : Status → String
  | .AVAILABLE => "Available"
  | .ASSIGNED => "Assigned / In Use"
  | .MAINTENANCE => "In Maintenance"
  | .LOST => "Lost / Stolen"
  | .BROKEN => "Broken / Decommissioned"

/-- An `Employee` row as far as the audit writer needs it: primary key and
`name`. Django compares model instances by primary key; distinct rows have
distinct primary keys, so record equality is instance equality. -/
structure Employee where
  id : Nat
  name : String
deriving DecidableEq, Repr

/-- The part of an `Asset` row that the state rule and the audit writer
read and write: `status` and `assigned_to` (a nullable `Employee` key). -/
structure AssetState where
  status : Status
  assigned_to : Option Employee
deriving DecidableEq, Repr

/-- `Asset.save` (`models.py` lines 74-94): the three sequential
normalization rewrites applied to the instance before `super().save()`.
Each `if` reads the fields as mutated by the previous one, exactly as the
Python method mutates `self` in place. -/
def assetSaveNormalize (a : AssetState) : AssetState :=
  -- 1. If assigned to someone and status is AVAILABLE, force ASSIGNED.
  let a1 := if a.assigned_to.isSome ∧ a.status = Status.AVAILABLE then
    { a with status := Status.ASSIGNED } else a
  -- 2. If status is AVAILABLE, remove the employee.
  let a2 := if a1.status = Status.AVAILABLE then
    { a1 with assigned_to := none } else a1
  -- 3. If unassigned but still ASSIGNED, revert to AVAILABLE.
  if a2.assigned_to = none ∧ a2.status = Status.ASSIGNED then
    { a2 with status := Status.AVAILABLE } else a2

/-- Step 1 of the spec's state rule, stated from the spec's words: if
assignee is set and status is AVAILABLE, set status to ASSIGNED. -/
def specStep1 (a : AssetState) : AssetState :=
  if a.assigned_to.isSome ∧ a.status = Status.AVAILABLE then
    { a with status := Status.ASSIGNED } else a

/-- Step 2 of the spec's state rule: if status is (still) AVAILABLE,
clear the assignee. -/
def specStep2 (a : AssetState) : AssetState :=
  if a.status = Status.AVAILABLE then { a with assigned_to := none } else a

/-- Step 3 of the spec's state rule: if assignee is unset and status is
ASSIGNED, set status to AVAILABLE. -/
def specStep3 (a : AssetState) : AssetState :=
  if a.assigned_to = none ∧ a.status = Status.ASSIGNED then
    { a with status := Status.AVAILABLE } else a

/-- A status is one of the three exceptional states MAINTENANCE, LOST,
BROKEN. -/
def isExceptionalStatus (s : Status) : Bool :=
  s = Status.MAINTENANCE ∨ s = Status.LOST ∨ s = Status.BROKEN

/-- The status/assignee consistency invariant of the spec: unless the
status is MAINTENANCE, LOST or BROKEN, the status is ASSIGNED exactly when
an assignee is present. -/
def consistent (a : AssetState) : Bool :=
  isExceptionalStatus a.status ||
    ((a.status = Status.ASSIGNED) = a.assigned_to.isSome)

/-- `delete_employee` (`views.py` lines 183-196): the bulk release
`assigned_assets.update(assigned_to=None, status='AVAILABLE')`, a direct
`QuerySet.update` that bypasses `Asset.save`. -/
def bulkReleaseWrite (_a : AssetState) : AssetState :=
  { status := Status.AVAILABLE, assigned_to := none }

/-- `add_asset` / `edit_asset`: the full `AssetForm` sets both `status`
and `assigned_to` on the candidate row, which then goes through
`Asset.save`. -/
def editAssetWrite (s : Status) (e : Option Employee) : AssetState :=
  assetSaveNormalize { status := s, assigned_to := e }

/-- `assign_asset` (`views.py`): the quick-assign form sets `assigned_to`,
the view forces `status = ASSIGNED`, then `Asset.save` runs. -/
def assignAssetWrite (e : Option Employee) : AssetState :=
  assetSaveNormalize { status := Status.ASSIGNED, assigned_to := e }

/-- `return_asset` (`views.py`): one-click return sets
`status = AVAILABLE` and `assigned_to = None`, then `Asset.save` runs. -/
def returnAssetWrite : AssetState :=
  assetSaveNormalize { status := Status.AVAILABLE, assigned_to := none }

/-- `update_status` (`views.py`): the status form sets both `status` and
`assigned_to`, then `Asset.save` runs. -/
def updateStatusWrite (s : Status) (e : Option Employee) : AssetState :=
  assetSaveNormalize { status := s, assigned_to := e }

/-- C1: `Asset.save` applies the spec's three steps in the spec's order,
and an exceptional incoming status never has its assignee cleared. -/
theorem asset_save_is_spec_steps_in_order :
    ∀ a : AssetState,
      assetSaveNormalize a = specStep3 (specStep2 (specStep1 a)) ∧
      (isExceptionalStatus a.status = true →
        (assetSaveNormalize a).assigned_to = a.assigned_to) := by
  intro a
  obtain ⟨s, e⟩ := a
  cases s <;> cases e <;>
    simp [assetSaveNormalize, specStep1, specStep2, specStep3,
      isExceptionalStatus]

theorem asset_save_is_spec_steps_in_order_witness :
    isExceptionalStatus Status.LOST = true ∧
    (assetSaveNormalize ⟨Status.LOST, some ⟨3, "Jane"⟩⟩).assigned_to
      = some ⟨3, "Jane"⟩ :=
  ⟨by decide,
   (asset_save_is_spec_steps_in_order ⟨Status.LOST, some ⟨3, "Jane"⟩⟩).2
     (by decide)⟩

/-- C2: every write path the views offer — create/edit via the full form,
quick-assign, one-click return, status update, and the bulk release run
when an employee is deleted — leaves a row satisfying the status/assignee
consistency invariant. -/
theorem writes_preserve_consistency :
    ∀ (s : Status) (e : Option Employee) (a : AssetState),
      consistent (editAssetWrite s e) = true ∧
      consistent (assignAssetWrite e) = true ∧
      consistent returnAssetWrite = true ∧
      consistent (updateStatusWrite s e) = true ∧
      consistent (bulkReleaseWrite a) = true := by
  intro s e a
  refine ⟨?_, ?_, ?_, ?_, ?_⟩ <;>
    cases s <;> cases e <;>
      simp [editAssetWrite, assignAssetWrite, returnAssetWrite,
        updateStatusWrite, bulkReleaseWrite, assetSaveNormalize,
        consistent, isExceptionalStatus]

/-- C3, counterexample: persisting a row whose status was set to AVAILABLE
while an assignee is still present does NOT clear the assignee — step 1 of
`Asset.save` fires first and re-derives status ASSIGNED, keeping the
employee. -/
theorem available_write_keeps_assignee_counterexample :
    (assetSaveNormalize ⟨Status.AVAILABLE, some ⟨3, "Jane"⟩⟩).assigned_to
        ≠ none ∧
      assetSaveNormalize ⟨Status.AVAILABLE, some ⟨3, "Jane"⟩⟩
        = ⟨Status.ASSIGNED, some ⟨3, "Jane"⟩⟩ := by
  constructor <;> decide

/-- C3, amended: persisting with status AVAILABLE yields a null assignee
when the prior assignee is null; with a non-null prior assignee it instead
yields status ASSIGNED with the assignee preserved. In either case no
persisted row has status AVAILABLE together with an assignee. -/
theorem available_write_amended :
    ∀ (em : Employee) (a : AssetState),
      assetSaveNormalize ⟨Status.AVAILABLE, none⟩
          = ⟨Status.AVAILABLE, none⟩ ∧
      assetSaveNormalize ⟨Status.AVAILABLE, some em⟩
          = ⟨Status.ASSIGNED, some em⟩ ∧
      ((assetSaveNormalize a).status = Status.AVAILABLE →
        (assetSaveNormalize a).assigned_to = none) := by
  intro em a
  obtain ⟨s, e⟩ := a
  refine ⟨by decide, rfl, ?_⟩
  cases s <;> cases e <;> simp [assetSaveNormalize]

theorem available_write_amended_witness :
    (assetSaveNormalize ⟨Status.AVAILABLE, none⟩).status
        = Status.AVAILABLE ∧
      (assetSaveNormalize ⟨Status.AVAILABLE, none⟩).assigned_to = none :=
  ⟨by decide,
   (available_write_amended ⟨0, "X"⟩ ⟨Status.AVAILABLE, none⟩).2.2
     (by decide)⟩

/-- Display name used in assignment fragments: the employee's `name`, or
`"Storage"` when unassigned (`signals.py` lines 28-29). -/
def assignedName : Option Employee → String
  | none => "Storage"
  | some e => e.name

/-- The change fragments built by `track_asset_changes` (`signals.py`
lines 18-30): a status fragment when the status differs, then an
assignment fragment when the assignee differs. -/
def historyFragments (old inst : AssetState) : List String :=
  (if old.status ≠ inst.status then
    ["Status: " ++ statusLabel old.status ++ " -> " ++ statusLabel inst.status]
  else []) ++
  (if old.assigned_to ≠ inst.assigned_to then
    ["Assigned to: " ++ assignedName old.assigned_to ++ " -> "
      ++ assignedName inst.assigned_to]
  else [])

/-- The action text of `track_asset_changes`: the fragments joined with
`", "`, or nothing when no tracked field changed (`signals.py` lines
33-34). -/
def trackAssetChanges (old inst : AssetState) : Option String :=
  let changes := historyFragments old inst
  if changes.isEmpty then none else some (String.intercalate ", " changes)

/-- An `AssetHistory` row as created by the receiver: `action` text and
the `changed_by` user key. -/
structure HistoryRecord where
  action : String
  changed_by : Nat
deriving DecidableEq, Repr

/-- The whole `pre_save` receiver (`signals.py` lines 6-46). `existing`
is the row fetched by primary key — `none` both for a new instance (no
`pk`) and when the fetch raises `Asset.DoesNotExist`. `_currentUser`
models the `_current_user` attribute the views attach to the instance;
the receiver never reads it and always records `instance.owner` as
`changed_by` (line 42). -/
def signalOnSave (ownerId : Nat) (_currentUser : Option Nat)
    (existing : Option AssetState) (inst : AssetState) :
    Option HistoryRecord :=
  match existing with
  | none => none
  | some old =>
    match trackAssetChanges old inst with
    | none => none
    | some txt => some ⟨txt, ownerId⟩

/-- A full update of an existing asset: `Asset.save` normalizes the
candidate before `super().save()`, inside which the `pre_save` receiver
diffs the stored row against the normalized instance. Returns the
persisted row and the appended history record, if any. -/
def assetUpdate (ownerId : Nat) (currentUser : Option Nat)
    (old cand : AssetState) : AssetState × Option HistoryRecord :=
  let persisted := assetSaveNormalize cand
  (persisted, signalOnSave ownerId currentUser (some old) persisted)

/-- Creation of a new asset: the instance has no primary key yet, so the
receiver has no stored row to diff against. -/
def assetCreate (ownerId : Nat) (cand : AssetState) :
    AssetState × Option HistoryRecord :=
  let persisted := assetSaveNormalize cand
  (persisted, signalOnSave ownerId none none persisted)

/-- The bulk release of `delete_employee` as an update of one affected
asset (`views.py` line 189): `QuerySet.update` writes the row directly in
the database, bypassing `Asset.save` and the `pre_save` receiver, so no
history record is produced. -/
def bulkReleaseUpdate (a : AssetState) :
    AssetState × Option HistoryRecord :=
  (bulkReleaseWrite a, none)

theorem historyFragments_eq_nil (old inst : AssetState) :
    historyFragments old inst = [] ↔
      old.status = inst.status ∧ old.assigned_to = inst.assigned_to := by
  by_cases hs : old.status = inst.status <;>
    by_cases ha : old.assigned_to = inst.assigned_to <;>
      simp [historyFragments, hs, ha]

/-- C4, counterexample: the bulk release run when an employee is deleted
updates an existing ASSIGNED asset so that both its persisted status and
its persisted assignee differ from the prior row, yet appends no
AssetHistory record — `QuerySet.update` bypasses the `pre_save`
receiver. -/
theorem history_diff_counterexample :
    (bulkReleaseUpdate ⟨Status.ASSIGNED, some ⟨3, "Jane"⟩⟩).1.status
        ≠ Status.ASSIGNED ∧
      (bulkReleaseUpdate ⟨Status.ASSIGNED, some ⟨3, "Jane"⟩⟩).1.assigned_to
        ≠ some ⟨3, "Jane"⟩ ∧
      (bulkReleaseUpdate ⟨Status.ASSIGNED, some ⟨3, "Jane"⟩⟩).2 = none := by
  decide

/-- C4, amended: for every update that goes through `Asset.save` (edit,
quick-assign, one-click return, status update), exactly one record is
appended iff the persisted status or assignee differs from the prior row,
its action text being the fragments joined by `", "`; creation appends
nothing; assigning Jane to an AVAILABLE, unassigned asset yields exactly
the predicted text; but the bulk release of `delete_employee` bypasses
the receiver and appends no record even though it changes tracked
fields. -/
theorem history_diff_save_path :
    ∀ (ownerId : Nat) (cu : Option Nat) (old cand a : AssetState),
      ((assetUpdate ownerId cu old cand).2 = none ↔
        (assetUpdate ownerId cu old cand).1.status = old.status ∧
        (assetUpdate ownerId cu old cand).1.assigned_to = old.assigned_to) ∧
      (∀ rec : HistoryRecord, (assetUpdate ownerId cu old cand).2 = some rec →
        rec.action = String.intercalate ", "
          (historyFragments old (assetSaveNormalize cand))) ∧
      (assetCreate ownerId cand).2 = none ∧
      (bulkReleaseUpdate a).2 = none ∧
      (assetUpdate ownerId cu ⟨Status.AVAILABLE, none⟩
          ⟨Status.AVAILABLE, some ⟨3, "Jane"⟩⟩).2 =
        some ⟨"Status: Available -> Assigned / In Use, Assigned to: Storage -> Jane",
          ownerId⟩ := by
  intro ownerId cu old cand a
  refine ⟨?_, ?_, rfl, rfl, ?_⟩
  · simp only [assetUpdate, signalOnSave, trackAssetChanges]
    rcases h : historyFragments old (assetSaveNormalize cand) with _ | ⟨c, cs⟩
    · have := (historyFragments_eq_nil old (assetSaveNormalize cand)).1 h
      simp [this.1.symm, this.2.symm]
    · have : ¬ historyFragments old (assetSaveNormalize cand) = [] := by
        simp [h]
      rw [historyFragments_eq_nil] at this
      simp only [h, List.isEmpty_cons, if_false, Bool.false_eq_true]
      constructor
      · intro hc; exact absurd hc (by simp)
      · intro hc
        exact absurd ⟨hc.1.symm, hc.2.symm⟩ this
  · intro rec hrec
    simp only [assetUpdate, signalOnSave, trackAssetChanges] at hrec
    rcases h : historyFragments old (assetSaveNormalize cand) with _ | ⟨c, cs⟩ <;>
      simp [h] at hrec
    exact hrec.symm ▸ rfl
  · rfl

theorem history_diff_save_path_witness :
    (assetUpdate 7 none ⟨Status.AVAILABLE, none⟩
        ⟨Status.AVAILABLE, some ⟨3, "Jane"⟩⟩).2 =
      some ⟨"Status: Available -> Assigned / In Use, Assigned to: Storage -> Jane",
        7⟩ ∧
    (HistoryRecord.mk
        "Status: Available -> Assigned / In Use, Assigned to: Storage -> Jane"
        7).action =
      String.intercalate ", "
        (historyFragments ⟨Status.AVAILABLE, none⟩
          (assetSaveNormalize ⟨Status.AVAILABLE, some ⟨3, "Jane"⟩⟩)) :=
  ⟨by decide,
   (history_diff_save_path 7 none ⟨Status.AVAILABLE, none⟩
      ⟨Status.AVAILABLE, some ⟨3, "Jane"⟩⟩ ⟨Status.AVAILABLE, none⟩).2.1 _
     (by decide)⟩

/-- C5, counterexample: an update performed with an explicit acting-user
context (`_current_user = 1`, a delegate distinct from the owning account
`0`) still records `changed_by = 0`, the owning account — the receiver
ignores the acting user. -/
theorem changed_by_names_actor_counterexample :
    (assetUpdate 0 (some 1) ⟨Status.AVAILABLE, none⟩
        ⟨Status.ASSIGNED, some ⟨3, "Jane"⟩⟩).2 =
      some ⟨"Status: Available -> Assigned / In Use, Assigned to: Storage -> Jane",
        0⟩ ∧
    (0 : Nat) ≠ 1 := by
  exact ⟨by decide, by decide⟩

/-- C5, amended: every record the receiver produces has `changed_by`
equal to the Asset's owning account, whether or not an acting-user
context was attached to the instance. -/
theorem changed_by_is_owner :
    ∀ (ownerId : Nat) (cu : Option Nat) (existing : Option AssetState)
      (inst : AssetState) (rec : HistoryRecord),
      signalOnSave ownerId cu existing inst = some rec →
        rec.changed_by = ownerId := by
  intro ownerId cu existing inst rec h
  rcases existing with _ | old
  · simp [signalOnSave] at h
  · simp only [signalOnSave] at h
    rcases ht : trackAssetChanges old inst with _ | txt <;> simp [ht] at h
    exact h ▸ rfl

theorem changed_by_is_owner_witness :
    (HistoryRecord.mk "Status: Available -> Lost / Stolen" 4).changed_by
      = 4 :=
  changed_by_is_owner 4 (some 9) (some ⟨Status.AVAILABLE, none⟩)
    ⟨Status.LOST, none⟩
    ⟨"Status: Available -> Lost / Stolen", 4⟩ (by decide)

/-- The persisted store a single asset's writes touch: its row and its
append-only history. -/
structure AssetDB where
  row : AssetState
  history : List HistoryRecord
deriving DecidableEq, Repr

/-- Modelled from the spec: the scoped transaction wrapping each Asset
write. The transaction boundary itself is not under `src/` — only the
`assets` application is present, while transaction configuration belongs
to the project level — so, per the spec, the normalized row write and the
audit append commit or fail together, and an abort leaves the stored
state untouched. The two failure flags stand for a failure of either
store write; the normalization (`assetSaveNormalize`) and the audit diff
(`signalOnSave`) inside the transaction are from source. Returns the
resulting store and whether the transaction committed. -/
def transactionalAssetWrite (db : AssetDB) (ownerId : Nat)
    (currentUser : Option Nat) (cand : AssetState)
    (assetWriteFails auditWriteFails : Bool) : AssetDB × Bool :=
  let persisted := assetSaveNormalize cand
  let entry := signalOnSave ownerId currentUser (some db.row) persisted
  if assetWriteFails || auditWriteFails then (db, false)
  else ({ row := persisted, history := db.history ++ entry.toList }, true)

/-- C6: every execution of a transactional asset write either leaves the
store exactly as it was (abort: neither the row change nor the audit
entry is committed) or commits both the normalized row and its audit
append together; in particular any failure of either inner write — e.g.
after normalization but before the audit append — commits neither. -/
theorem asset_write_atomic :
    ∀ (db : AssetDB) (ownerId : Nat) (cu : Option Nat) (cand : AssetState)
      (f1 f2 : Bool),
      ((transactionalAssetWrite db ownerId cu cand f1 f2).1 = db ∨
        ((transactionalAssetWrite db ownerId cu cand f1 f2).1.row
            = assetSaveNormalize cand ∧
          (transactionalAssetWrite db ownerId cu cand f1 f2).1.history
            = db.history ++ (signalOnSave ownerId cu (some db.row)
                (assetSaveNormalize cand)).toList)) ∧
      (transactionalAssetWrite db ownerId cu cand f1 true).1 = db ∧
      (transactionalAssetWrite db ownerId cu cand true f2).1 = db := by
  intro db ownerId cu cand f1 f2
  refine ⟨?_, ?_, ?_⟩ <;> cases f1 <;> cases f2 <;>
    simp [transactionalAssetWrite]

/-- The owner's entitlement data as `add_asset` reads it (`views.py`
lines 214-221): `(is_premium, max_assets)` from the resolved owner's
`UserProfile`, or the fallback `(False, 50)` when the profile is
missing. -/
def ownerEntitlements : Option (Bool × Nat) → Bool × Nat
  | some p => p
  | none => (false, 50)

/-- The quota gate at the top of `add_asset` (`views.py` lines 206-227):
creation is blocked when the owner is not premium and the current asset
count has reached the limit; returns `true` when creation proceeds. -/
def addAssetPermitted (profile : Option (Bool × Nat))
    (currentCount : Nat) : Bool :=
  !(!(ownerEntitlements profile).1 &&
    decide (currentCount ≥ (ownerEntitlements profile).2))

/-- C7: asset creation is permitted exactly when the resolved owner is
premium or its asset count is strictly below the quota; a non-premium
account is blocked at `count = max_assets` and allowed at
`count = max_assets - 1`. -/
theorem add_asset_gate_correct :
    ∀ (profile : Option (Bool × Nat)) (count limit : Nat),
      (addAssetPermitted profile count = true ↔
        ((ownerEntitlements profile).1 = true ∨
          count < (ownerEntitlements profile).2)) ∧
      addAssetPermitted (some (false, limit)) limit = false ∧
      addAssetPermitted (some (false, limit + 1)) limit = true := by
  intro profile count limit
  refine ⟨?_, ?_, ?_⟩
  · rcases profile with _ | ⟨prem, lim⟩
    · simp [addAssetPermitted, ownerEntitlements]
    · cases prem <;> simp [addAssetPermitted, ownerEntitlements]
  · simp [addAssetPermitted, ownerEntitlements]
  · simp [addAssetPermitted, ownerEntitlements]

theorem add_asset_gate_correct_witness :
    addAssetPermitted (some (true, 0)) 1000 = true :=
  (add_asset_gate_correct (some (true, 0)) 1000 0).1.mpr (Or.inl rfl)

/-- The three request modes of `download_labels_pdf` (`views.py` lines
526-549): a `uuid` GET parameter selects single mode; otherwise a
nonempty `asset_ids` POST list selects bulk selection; otherwise
print-all. -/
inductive ExportRequest where
  | single (uuid : Nat)
  | selected (ids : List Nat)
  | printAll
deriving DecidableEq, Repr

/-- Outcome of the premium gate: proceed to PDF generation, or render the
`premium_lock` upsell page. -/
inductive ExportOutcome where
  | proceed
  | premiumLock
deriving DecidableEq, Repr

/-- The premium gating of `download_labels_pdf` (`views.py` lines
535-549): single mode is never gated; bulk selection is gated when a
non-premium owner selects more than one id; print-all is gated for every
non-premium owner. -/
def downloadLabelsGate (is_premium : Bool) (req : ExportRequest) :
    ExportOutcome :=
  match req with
  | .single _ => .proceed
  | .selected ids =>
      if !is_premium && decide (ids.length > 1) then .premiumLock
      else .proceed
  | .printAll => if !is_premium then .premiumLock else .proceed

/-- The number of labels a request asks for: one in single mode, the
selection size in bulk mode, and the owner's whole asset count in
print-all mode. -/
def requestedCount (totalAssets : Nat) : ExportRequest → Nat
  | .single _ => 1
  | .selected ids => ids.length
  | .printAll => totalAssets

/-- C8, counterexample: a non-premium owner with exactly one asset
requesting print-all asks for one label — at most 1, so the claim says
the export is permitted — yet the gate renders the premium lock. -/
theorem bulk_export_gate_counterexample :
    downloadLabelsGate false ExportRequest.printAll
        = ExportOutcome.premiumLock ∧
      requestedCount 1 ExportRequest.printAll ≤ 1 := by
  decide

/-- C8, amended: export is permitted iff the owner is premium, or the
request is single-uuid, or the request is a selection of at most one id;
print-all requires premium regardless of how many assets the owner has;
every blocked request yields the premium-lock outcome. -/
theorem bulk_export_gate_amended :
    ∀ (prem : Bool) (k : Nat) (ids : List Nat),
      downloadLabelsGate prem (ExportRequest.single k)
          = ExportOutcome.proceed ∧
      (downloadLabelsGate prem (ExportRequest.selected ids)
          = ExportOutcome.proceed ↔ (prem = true ∨ ids.length ≤ 1)) ∧
      (downloadLabelsGate prem (ExportRequest.selected ids)
          = ExportOutcome.premiumLock ↔
        ¬(prem = true ∨ ids.length ≤ 1)) ∧
      (downloadLabelsGate prem ExportRequest.printAll
          = ExportOutcome.proceed ↔ prem = true) ∧
      (downloadLabelsGate prem ExportRequest.printAll
          = ExportOutcome.premiumLock ↔ prem = false) := by
  intro prem k ids
  cases prem <;> refine ⟨rfl, ?_, ?_, ?_, ?_⟩ <;>
    simp [downloadLabelsGate]

theorem bulk_export_gate_amended_witness :
    downloadLabelsGate false (ExportRequest.selected [1, 2])
      = ExportOutcome.premiumLock :=
  (bulk_export_gate_amended false 0 [1, 2]).2.2.1.mpr (by decide)

/-- `get_shared_owner` (`views.py` lines 19-27): the profile table maps a
user key to `none` (no profile row), `some none` (profile with no
`master_account`) or `some (some m)` (profile delegating to `m`);
the resolver returns the delegation target if one is set, else the user
itself. -/
def resolveOwner (profiles : Nat → Option (Option Nat)) (u : Nat) : Nat :=
  match profiles u with
  | some (some m) => m
  | _ => u

/-- The spec's single-level delegation invariant: a delegation target
never itself delegates. -/
def singleLevelDelegation (profiles : Nat → Option (Option Nat)) : Prop :=
  ∀ u m k, profiles u = some (some m) → profiles m ≠ some (some k)

/-- `Asset.objects.filter(owner=owner)` over a table of
(owner key, row) pairs, as every scoped query in `views.py` issues it. -/
def scopedAssets (rows : List (Nat × AssetState)) (owner : Nat) :
    List (Nat × AssetState) :=
  rows.filter (fun r => r.1 == owner)

/-- `Employee.objects.filter(owner=owner)` over a table of
(owner key, row) pairs. -/
def scopedEmployees (rows : List (Nat × Employee)) (owner : Nat) :
    List (Nat × Employee) :=
  rows.filter (fun r => r.1 == owner)

/-- C9: the resolver returns the delegation target when set and the
principal otherwise; under single-level delegation it is idempotent, a
delegate and its primary resolve to the same owner, and the two obtain
identical scoped Asset and Employee query results. -/
theorem resolve_owner_idempotent :
    ∀ (profiles : Nat → Option (Option Nat)),
      singleLevelDelegation profiles →
      ∀ (u m : Nat) (assets : List (Nat × AssetState))
        (emps : List (Nat × Employee)),
        (profiles u = none → resolveOwner profiles u = u) ∧
        (profiles u = some none → resolveOwner profiles u = u) ∧
        resolveOwner profiles (resolveOwner profiles u)
          = resolveOwner profiles u ∧
        (profiles u = some (some m) →
          resolveOwner profiles u = m ∧
          resolveOwner profiles u = resolveOwner profiles m ∧
          scopedAssets assets (resolveOwner profiles u)
            = scopedAssets assets (resolveOwner profiles m) ∧
          scopedEmployees emps (resolveOwner profiles u)
            = scopedEmployees emps (resolveOwner profiles m)) := by
  intro profiles hinv u m assets emps
  have hres : ∀ v w, profiles v = some (some w) →
      resolveOwner profiles w = w := by
    intro v w hv
    rcases h2 : profiles w with _ | mo
    · simp [resolveOwner, h2]
    · rcases mo with _ | k
      · simp [resolveOwner, h2]
      · exact absurd h2 (hinv v w k hv)
  refine ⟨?_, ?_, ?_, ?_⟩
  · intro h; simp [resolveOwner, h]
  · intro h; simp [resolveOwner, h]
  · rcases h : profiles u with _ | mo
    · simp [resolveOwner, h]
    · rcases mo with _ | m'
      · simp [resolveOwner, h]
      · have h1 : resolveOwner profiles u = m' := by simp [resolveOwner, h]
        rw [h1, hres u m' h]
  · intro h
    have h1 : resolveOwner profiles u = m := by simp [resolveOwner, h]
    have h2 := hres u m h
    exact ⟨h1, by rw [h1, h2], by rw [h1, h2], by rw [h1, h2]⟩

/-- A concrete three-user profile table: user 1 delegates to user 0,
user 0 has a profile with no delegation, everyone else has no profile. -/
def profilesExample : Nat → Option (Option Nat) :=
  fun u => if u = 1 then some (some 0) else if u = 0 then some none
    else none

theorem profilesExample_single_level :
    singleLevelDelegation profilesExample := by
  intro u m k hu
  by_cases h1 : u = 1
  · subst h1
    simp [profilesExample] at hu
    subst hu
    simp [profilesExample]
  · by_cases h0 : u = 0 <;> simp [profilesExample, h1, h0] at hu

theorem resolve_owner_idempotent_witness :
    resolveOwner profilesExample (resolveOwner profilesExample 1)
        = resolveOwner profilesExample 1 ∧
      resolveOwner profilesExample 1 = 0 ∧
      scopedAssets [(0, ⟨Status.AVAILABLE, none⟩)]
          (resolveOwner profilesExample 1)
        = scopedAssets [(0, ⟨Status.AVAILABLE, none⟩)]
          (resolveOwner profilesExample 0) :=
  ⟨(resolve_owner_idempotent profilesExample profilesExample_single_level
      1 0 [] []).2.2.1,
   ((resolve_owner_idempotent profilesExample profilesExample_single_level
      1 0 [] []).2.2.2 (by decide)).1,
   ((resolve_owner_idempotent profilesExample profilesExample_single_level
      1 0 [(0, ⟨Status.AVAILABLE, none⟩)] []).2.2.2 (by decide)).2.2.1⟩

/-- One iteration of the counter bookkeeping at the end of the label loop
of `download_labels_pdf` (`views.py` lines 652-662): `c += 1`; wrap to a
new row once `c` reaches 3 columns; once `r` reaches 8 rows, emit the
page and reset both counters. State is (column, row, completed pages). -/
def layoutStep : Nat × Nat × Nat → Nat × Nat × Nat
  | (c, r, page) =>
    if c + 1 ≥ 3 then
      if r + 1 ≥ 8 then (0, 0, page + 1) else (0, r + 1, page)
    else
      if r ≥ 8 then (0, 0, page + 1) else (c + 1, r, page)

/-- Running the label loop over `n` assets from counter state `s`: each
asset is drawn into the cell given by the current counters (`views.py`
lines 563-566) before they advance; the emitted triple is
(page, row, column). -/
def layoutRun : Nat → Nat × Nat × Nat → List (Nat × Nat × Nat)
  | 0, _ => []
  | n + 1, s => (s.2.2, s.2.1, s.1) :: layoutRun n (layoutStep s)

/-- The grid cells the label loop assigns to `n` assets taken in order,
starting from column 0, row 0, page 0. -/
def layoutPlacements (n : Nat) : List (Nat × Nat × Nat) :=
  layoutRun n (0, 0, 0)

theorem layoutStep_mod (i : Nat) :
    layoutStep (i % 24 % 3, i % 24 / 3, i / 24)
      = ((i + 1) % 24 % 3, (i + 1) % 24 / 3, (i + 1) / 24) := by
  simp only [layoutStep]
  split
  · split <;> simp only [Prod.mk.injEq] <;> omega
  · split <;> simp only [Prod.mk.injEq] <;> omega

theorem layoutRun_closed_form (n : Nat) :
    ∀ i : Nat, layoutRun n (i % 24 % 3, i % 24 / 3, i / 24)
      = (List.range n).map
          (fun j => ((i + j) / 24, (i + j) % 24 / 3, (i + j) % 24 % 3)) := by
  induction n with
  | zero => intro i; simp [layoutRun]
  | succ n ih =>
    intro i
    rw [layoutRun, layoutStep_mod i, ih (i + 1),
      List.range_succ_eq_map, List.map_cons, List.map_map]
    refine List.cons_eq_cons.mpr ⟨by simp, ?_⟩
    apply List.map_congr_left
    intro a _
    simp only [Function.comp_apply, Prod.mk.injEq]
    omega

/-- C10: the label loop places the `i`-th asset (0-based, in the given
order) on page `i / 24`, row `i % 24 / 3`, column `i % 24 % 3` — filling
left-to-right within a row, then row by row, 24 cells per page; a run of
25 assets puts 24 labels on page 0 and 1 label on page 1, touching no
further page. -/
theorem label_layout_grid :
    ∀ n : Nat,
      layoutPlacements n = (List.range n).map
        (fun i => (i / 24, i % 24 / 3, i % 24 % 3)) ∧
      (layoutPlacements n).length = n ∧
      ((layoutPlacements 25).filter (fun p => p.1 == 0)).length = 24 ∧
      ((layoutPlacements 25).filter (fun p => p.1 == 1)).length = 1 ∧
      (layoutPlacements 25).all (fun p => decide (p.1 < 2)) = true := by
  intro n
  have h : layoutPlacements n = (List.range n).map
      (fun i => (i / 24, i % 24 / 3, i % 24 % 3)) := by
    have h0 := layoutRun_closed_form n 0
    simpa [layoutPlacements] using h0
  exact ⟨h, by simp [h], by decide, by decide, by decide⟩
